import Mathlib

/-!
Verification of the request/response/error-normalization layer of the
`lyft` repository (Go client for the Lyft v1 HTTP API) against its
natural-language specification.

Modelling conventions (shallow embedding of the Go source):

* JSON values are the inductive `Json`. JSON numbers are carried as `Int`:
  every numeric wire value exercised by the specification is integral, and
  the Go code only copies `float64` fields verbatim or formats them, so
  integer-valued numbers behave identically.
* A buffered HTTP response body is the inductive `Body`, retaining exactly
  the observations the Go code makes of the byte buffer: emptiness, the
  outcome of JSON parsing, and byte equality. `Body.empty` is the
  zero-length buffer, `Body.invalid s` stands for non-empty bytes `s` that
  are not well-formed JSON, and `Body.json j` stands for bytes whose JSON
  parse yields `j`.
* Go `time.Duration` is an `Int` counting nanoseconds; arithmetic on it is
  `int64` arithmetic, so multiplications wrap via `wrap64`.
* `http.Header` is an association list from keys to value lists; the Go
  code under scrutiny accesses it with the non-canonical literal key
  `"error"`, which we mirror with exact-key lookup.
* Fallible Go code (`json.Unmarshal`, `strconv.ParseInt`, `time.Parse`)
  returns `Option`: `none` is a non-nil Go error.
-/

/-- A parsed JSON value. Numbers are modelled as integers (see header). -/
inductive Json where
  | null
  | bool (b : Bool)
  | num (n : Int)
  | str (s : String)
  | arr (xs : List Json)
  | obj (fields : List (String × Json))

/-- Last-wins lookup of an object field, mirroring `encoding/json`, where a
later duplicate key overwrites an earlier one. -/
def lookupField (fields : List (String × Json)) (k : String) : Option Json :=
  fields.foldl (fun acc kv => if kv.1 = k then some kv.2 else acc) none

def Json.getField (j : Json) (k : String) : Option Json :=
  match j with
  | .obj fs => lookupField fs k
  | _ => none

/-- Two to the sixty-third, the `int64` sign bound. -/
def int64Bound : Int := 9223372036854775808

/-- Wrap an integer into `int64` two's-complement range, modelling Go's
wrapping signed arithmetic. -/
def wrap64 (z : Int) : Int := (z + int64Bound) % (2 * int64Bound) - int64Bound

/-- Nanoseconds in a second: the value of Go's `time.Second`. -/
def nsPerSecond : Int := 1000000000

/-- `time.Second * time.Duration(n)` for an `int64` count of seconds `n`:
`int64` multiplication by `10^9`, wrapping on overflow. -/
def goSecondsDuration (n : Int) : Int := wrap64 (nsPerSecond * n)

/-- A buffered response body (see the header comment). -/
inductive Body where
  | empty
  | invalid (s : String)
  | json (j : Json)

/-- The JSON parse of the buffered bytes: only a `Body.json` buffer parses. -/
def Body.parse : Body → Option Json
  | .json j => some j
  | _ => none

/-- `len(buf.Bytes()) == 0`. -/
def Body.isEmpty : Body → Bool
  | .empty => true
  | _ => false

/-- `http.Header`: keys (unique) to value lists. -/
abbrev Header := List (String × List String)

/-- Go map access `h[k]` on a header: the value list, or `nil` when absent. -/
def headerValues (h : Header) (k : String) : List String :=
  match h.find? (fun kv => kv.1 == k) with
  | some kv => kv.2
  | none => []

/-! ### Field extraction with `encoding/json` semantics

A missing field, or a JSON `null`, leaves the target at its zero value
without error; a present field of the wrong shape is a decode error. -/

def fieldString (j : Json) (k : String) : Option String :=
  match j.getField k with
  | none => some ""
  | some .null => some ""
  | some (.str s) => some s
  | some _ => none

/-- A `float64`-typed struct field (numbers modelled as integers). -/
def fieldNum (j : Json) (k : String) : Option Int :=
  match j.getField k with
  | none => some 0
  | some .null => some 0
  | some (.num n) => some n
  | some _ => none

/-- An `int64`-typed (or 64-bit `int`-typed) struct field; a number outside
`int64` range is an unmarshal error in Go. -/
def fieldInt64 (j : Json) (k : String) : Option Int :=
  match j.getField k with
  | none => some 0
  | some .null => some 0
  | some (.num n) => if -int64Bound ≤ n ∧ n < int64Bound then some n else none
  | some _ => none

def fieldBool (j : Json) (k : String) : Option Bool :=
  match j.getField k with
  | none => some false
  | some .null => some false
  | some (.bool b) => some b
  | some _ => none

/-- One entry of a `map[string]string`: the value must be a string (a `null`
value leaves the zero string). -/
def decodeStringPair : String × Json → Option (String × String)
  | (k, .str s) => some (k, s)
  | (k, .null) => some (k, "")
  | _ => none

/-- Decode a `map[string]string`. -/
def decodeStringMap (j : Json) : Option (List (String × String)) :=
  match j with
  | .null => some []
  | .obj fs => fs.mapM decodeStringPair
  | _ => none

/-- Decode a `[]map[string]string`. -/
def decodeDetails (j : Json) : Option (List (List (String × String))) :=
  match j with
  | .null => some []
  | .arr xs => xs.mapM decodeStringMap
  | _ => none

def fieldDetails (j : Json) (k : String) : Option (List (List (String × String))) :=
  match j.getField k with
  | none => some []
  | some v => decodeDetails v

/-! ### The error model (`part_000` of the source) -/

/-- `lyftError`, the wire shape of Lyft error bodies:
`error`, `error_detail`, `error_description`. -/
structure lyftError where
  Slug : String := ""
  Details : List (List (String × String)) := []
  Description : String := ""
deriving Repr, DecidableEq

/-- `json.Unmarshal` into `lyftError` (no custom unmarshaler): `null` is a
no-op on the zero value, an object decodes fieldwise, anything else errors. -/
def decode_lyftError (j : Json) : Option lyftError :=
  match j with
  | .null => some {}
  | .obj _ => do
    let slug ← fieldString j "error"
    let det ← fieldDetails j "error_detail"
    let desc ← fieldString j "error_description"
    some { Slug := slug, Details := det, Description := desc }
  | _ => none

/-- The repository's `unmarshal` helper applied at type `lyftError`:
read all bytes, then `json.Unmarshal`. -/
def unmarshal_lyftError (b : Body) : Option lyftError :=
  (Body.parse b).bind decode_lyftError

/-- Possible values for the `Reason` field in `StatusError`. -/
def TokenExpired : String := "token_expired"

structure ErrorInfo where
  Reason : String := ""
  Details : List (List (String × String)) := []
  Description : String := ""
deriving Repr, DecidableEq

/-- `newErrorInfo`: decode the body as `lyftError`; `Reason` comes from the
first value of the non-canonical `error` header when the key holds one,
otherwise from the decoded `error` slug when the decode succeeded; `Details`
and `Description` are taken from the body only when the decode succeeded. -/
def newErrorInfo (body : Body) (h : Header) : ErrorInfo :=
  let lyftErr : Option lyftError := unmarshal_lyftError body
  let v : List String := headerValues h "error"
  let e : String :=
    match v, lyftErr with
    | x :: _, _ => x
    | [], some le => le.Slug
    | [], none => ""
  let det : List (List (String × String)) :=
    match lyftErr with
    | some le => le.Details
    | none => []
  let desc : String :=
    match lyftErr with
    | some le => le.Description
    | none => ""
  { Reason := e, Details := det, Description := desc }

/-- The fields of `http.Response` that the classification code reads. -/
structure Response where
  StatusCode : Int
  Header : Header
  Body : Body

/-- `StatusError`: status code, captured raw body, embedded `ErrorInfo`. -/
structure StatusError extends ErrorInfo where
  StatusCode : Int := 0
  ResponseBody : Body := .empty

/-- `newStatusError`: buffer the body once (`buf`), hand an independent copy
(`buf2`) of the same bytes to `newErrorInfo`, and store the buffer as
`ResponseBody`. -/
def newStatusError (rsp : Response) : StatusError :=
  { toErrorInfo := newErrorInfo rsp.Body rsp.Header
    StatusCode := rsp.StatusCode
    ResponseBody := rsp.Body }

/-! ### `strconv.ParseInt(s, 10, 64)` -/

/-- Base-10 digits to a natural number; `none` when empty or containing a
non-digit character. -/
def digitStep (acc : Option Nat) (c : Char) : Option Nat :=
  acc.bind fun n =>
    if c.isDigit then some (n * 10 + (c.toNat - 48)) else none

def digitsToNat (ds : List Char) : Option Nat :=
  if ds.isEmpty then none
  else ds.foldl digitStep (some 0)

/-- Go's `strconv.ParseInt(s, 10, 64)`: an optional sign, then one or more
base-10 digits; the value must fit `int64` (note `-2^63` is allowed but
`2^63` is not). -/
def parseInt64 (s : String) : Option Int :=
  match s.toList with
  | [] => none
  | c :: rest =>
    let neg : Bool := c = '-'
    let ds : List Char := if c = '-' ∨ c = '+' then rest else c :: rest
    match digitsToNat ds with
    | none => none
    | some n =>
      if neg then
        if (n : Int) ≤ int64Bound then some (-(n : Int)) else none
      else
        if (n : Int) < int64Bound then some (n : Int) else none

/-! ### `time.Parse(time.RFC3339, s)`

`TimeLayout = time.RFC3339 = "2006-01-02T15:04:05Z07:00"`. The model
covers the grammar Go accepts for this layout: a four-digit year, dashed
date, `T`, a colon-separated clock, an optional fractional second
(which Go accepts when parsing even though the layout does not show it),
and a zone that is `Z` or a signed `hh:mm` offset, with calendar and
clock range checks. -/

/-- The zero `time.Time`: January 1, year 1, 00:00:00 UTC. -/
structure GoTime where
  year : Int := 1
  month : Nat := 1
  day : Nat := 1
  hour : Nat := 0
  minute : Nat := 0
  sec : Nat := 0
  nanos : Nat := 0
  offsetMin : Int := 0
deriving Repr, DecidableEq

def digit2 : List Char → Option (Nat × List Char)
  | a :: b :: rest =>
    if a.isDigit ∧ b.isDigit then
      some ((a.toNat - 48) * 10 + (b.toNat - 48), rest)
    else none
  | _ => none

def digit4 : List Char → Option (Nat × List Char)
  | a :: b :: c :: d :: rest =>
    if a.isDigit ∧ b.isDigit ∧ c.isDigit ∧ d.isDigit then
      some ((((a.toNat - 48) * 10 + (b.toNat - 48)) * 10 + (c.toNat - 48)) * 10
              + (d.toNat - 48), rest)
    else none
  | _ => none

def expectChar (c : Char) : List Char → Option (List Char)
  | x :: rest => if x = c then some rest else none
  | [] => none

def takeDigits : List Char → List Char × List Char
  | c :: cs =>
    if c.isDigit then
      let p := takeDigits cs
      (c :: p.1, p.2)
    else ([], c :: cs)
  | [] => ([], [])

/-- Value of a fractional-second digit string in nanoseconds (at most nine
digits significant). -/
def fracNanos (ds : List Char) : Nat :=
  let nine := (ds.take 9) ++ List.replicate (9 - ds.length) '0'
  nine.foldl (fun acc c => acc * 10 + (c.toNat - 48)) 0

/-- An optional fractional second: a `.` or `,` followed by at least one
digit; absent otherwise. -/
def parseFrac : List Char → Option (Nat × List Char)
  | c :: rest =>
    if c = '.' ∨ c = ',' then
      match takeDigits rest with
      | ([], _) => none
      | (ds, r) => some (fracNanos ds, r)
    else some (0, c :: rest)
  | [] => some (0, [])

/-- The zone: `Z`, or a sign followed by `hh:mm`. Returns the offset in
minutes. -/
def parseZone : List Char → Option (Int × List Char)
  | 'Z' :: rest => some (0, rest)
  | c :: rest =>
    if c = '+' ∨ c = '-' then
      match digit2 rest with
      | none => none
      | some (hh, r1) =>
        match expectChar ':' r1 with
        | none => none
        | some r2 =>
          match digit2 r2 with
          | none => none
          | some (mm, r3) =>
            if hh ≤ 23 ∧ mm ≤ 59 then
              let total : Int := (hh : Int) * 60 + (mm : Int)
              some (if c = '-' then -total else total, r3)
            else none
    else none
  | [] => none

def isLeapYear (y : Int) : Bool := y % 4 = 0 ∧ (y % 100 ≠ 0 ∨ y % 400 = 0)

def daysInMonth (y : Int) (m : Nat) : Nat :=
  if m = 2 then (if isLeapYear y then 29 else 28)
  else if m = 4 ∨ m = 6 ∨ m = 9 ∨ m = 11 then 30
  else 31

/-- The date part `YYYY-MM-DD` followed by the literal `T`. -/
def parseDatePart (cs : List Char) : Option (Nat × Nat × Nat × List Char) :=
  match digit4 cs with
  | none => none
  | some (y, r1) =>
    match expectChar '-' r1 with
    | none => none
    | some r2 =>
      match digit2 r2 with
      | none => none
      | some (mo, r3) =>
        match expectChar '-' r3 with
        | none => none
        | some r4 =>
          match digit2 r4 with
          | none => none
          | some (d, r5) =>
            match expectChar 'T' r5 with
            | none => none
            | some r6 => some (y, mo, d, r6)

/-- The clock part `hh:mm:ss`. -/
def parseClockPart (cs : List Char) : Option (Nat × Nat × Nat × List Char) :=
  match digit2 cs with
  | none => none
  | some (hh, r1) =>
    match expectChar ':' r1 with
    | none => none
    | some r2 =>
      match digit2 r2 with
      | none => none
      | some (mi, r3) =>
        match expectChar ':' r3 with
        | none => none
        | some r4 =>
          match digit2 r4 with
          | none => none
          | some (ss, r5) => some (hh, mi, ss, r5)

def parseRFC3339 (s : String) : Option GoTime :=
  match parseDatePart s.toList with
  | none => none
  | some (y, mo, d, r6) =>
    match parseClockPart r6 with
    | none => none
    | some (hh, mi, ss, r11) =>
      match parseFrac r11 with
      | none => none
      | some (ns, r12) =>
        match parseZone r12 with
        | none => none
        | some (off, r13) =>
          if r13 = [] ∧ 1 ≤ mo ∧ mo ≤ 12 ∧ 1 ≤ d ∧ d ≤ daysInMonth (y : Int) mo
              ∧ hh ≤ 23 ∧ mi ≤ 59 ∧ ss ≤ 59 then
            some { year := (y : Int), month := mo, day := d, hour := hh,
                   minute := mi, sec := ss, nanos := ns, offsetMin := off }
          else none

/-! ### Specialized errors (`doc.go` of the vendored client) -/

/-- `CostTokenInfo`; `TokenDuration` is a `time.Duration` (nanoseconds),
`PrimetimeMultiplier` a `float64` (integral values modelled). -/
structure CostTokenInfo where
  PrimetimePercentage : String := ""
  PrimetimeMultiplier : Int := 0
  PrimetimeToken : String := ""
  CostToken : String := ""
  TokenDuration : Int := 0
  ErrorURI : String := ""
deriving Repr, DecidableEq

/-- `CostTokenInfo.UnmarshalJSON`: decode the auxiliary struct (with
`token_duration` a *string* of seconds), then `strconv.ParseInt` it in
base 10; a parse failure fails the whole unmarshal. -/
def CostTokenInfo.unmarshalJSON (j : Json) : Option CostTokenInfo :=
  match j with
  | .null => some {}
  | .obj _ => do
    let pp ← fieldString j "primetime_percentage"
    let pm ← fieldNum j "primetime_multiplier"
    let pt ← fieldString j "primetime_confirmation_token"
    let ct ← fieldString j "cost_token"
    let td ← fieldString j "token_duration"
    let euri ← fieldString j "error_uri"
    let i ← parseInt64 td
    some { PrimetimePercentage := pp, PrimetimeMultiplier := pm,
           PrimetimeToken := pt, CostToken := ct,
           TokenDuration := goSecondsDuration i, ErrorURI := euri }
  | _ => none

/-- `newCostTokenInfo`: `unmarshal` at type `CostTokenInfo`. -/
def newCostTokenInfo (b : Body) : Option CostTokenInfo :=
  (Body.parse b).bind CostTokenInfo.unmarshalJSON

/-- `RideRequestError`: the generic error info plus an optional
`CostTokenInfo` (`nil` when its decode failed). -/
structure RideRequestError extends ErrorInfo where
  Cost : Option CostTokenInfo := none
deriving Repr, DecidableEq

/-- `newRideRequestError`: buffer the body once, give independent copies to
`newErrorInfo` and `newCostTokenInfo`; keep the cost info only when its
decode returned no error. -/
def newRideRequestError (rsp : Response) : RideRequestError :=
  { toErrorInfo := newErrorInfo rsp.Body rsp.Header
    Cost := newCostTokenInfo rsp.Body }

/-- The auxiliary struct of `newCancelRideError`: `amount` (`float64`),
`currency`, `token`, `token_duration` (`int64` seconds). -/
structure cancelAux where
  Amount : Int := 0
  Currency : String := ""
  Token : String := ""
  TokenDuration : Int := 0
deriving Repr, DecidableEq

def decode_cancelAux (j : Json) : Option cancelAux :=
  match j with
  | .null => some {}
  | .obj _ => do
    let a ← fieldNum j "amount"
    let c ← fieldString j "currency"
    let t ← fieldString j "token"
    let td ← fieldInt64 j "token_duration"
    some { Amount := a, Currency := c, Token := t, TokenDuration := td }
  | _ => none

def unmarshal_cancelAux (b : Body) : Option cancelAux :=
  (Body.parse b).bind decode_cancelAux

/-- `CancelRideError`: generic error info plus supplementary fee fields,
which stay at their zero values when the supplementary decode fails. -/
structure CancelRideError extends ErrorInfo where
  Amount : Int := 0
  Currency : String := ""
  Token : String := ""
  TokenDuration : Int := 0
deriving Repr, DecidableEq

/-- `newCancelRideError`: buffer the body once, give independent copies to
`newErrorInfo` and the supplementary decode; on supplementary failure the
fee fields are left at their zero values and classification still
produces the error value. -/
def newCancelRideError (rsp : Response) : CancelRideError :=
  let ei := newErrorInfo rsp.Body rsp.Header
  match unmarshal_cancelAux rsp.Body with
  | some a =>
    { toErrorInfo := ei, Amount := a.Amount, Currency := a.Currency,
      Token := a.Token, TokenDuration := goSecondsDuration a.TokenDuration }
  | none => { toErrorInfo := ei }

/-- The Go `error` values this layer returns. -/
inductive GoError where
  | statusError (se : StatusError)
  | rideRequestErr (e : RideRequestError)
  | cancelRideErr (e : CancelRideError)
  | decodeErr
  | errVerify
  | other (s : String)

/-- `IsRateLimit`: a `*StatusError` with status code exactly 429. -/
def IsRateLimit (err : GoError) : Bool :=
  match err with
  | .statusError se => se.StatusCode == 429
  | _ => false

/-- `IsTokenExpired`: a `*StatusError` whose status code is 401 with an
empty captured body, or whose `Reason` is the `token_expired` slug. -/
def IsTokenExpired (err : GoError) : Bool :=
  match err with
  | .statusError se =>
    (se.StatusCode == 401 && se.ResponseBody.isEmpty) || se.Reason == TokenExpired
  | _ => false

/-! ### Plain struct decoders (default `encoding/json` machinery) -/

/-- A struct-typed field: missing leaves the zero value `z`; otherwise the
nested decoder runs (it treats `null` as its own zero, as Go does). -/
def fieldStruct (j : Json) (k : String) (d : Json → Option α) (z : α) : Option α :=
  match j.getField k with
  | none => some z
  | some v => d v

/-- A slice-typed field: missing or `null` is the nil slice. -/
def fieldList (j : Json) (k : String) (d : Json → Option α) : Option (List α) :=
  match j.getField k with
  | none => some []
  | some .null => some []
  | some (.arr xs) => xs.mapM d
  | some _ => none

def decodeStringElem : Json → Option String
  | .str s => some s
  | .null => some ""
  | _ => none

structure Location where
  Latitude : Int := 0
  Longitude : Int := 0
  Address : String := ""
deriving Repr, DecidableEq

def decodeLocation (j : Json) : Option Location :=
  match j with
  | .null => some {}
  | .obj _ => do
    let lat ← fieldNum j "lat"
    let lng ← fieldNum j "lng"
    let a ← fieldString j "address"
    some { Latitude := lat, Longitude := lng, Address := a }
  | _ => none

structure Person where
  UserID : String := ""
  FirstName : String := ""
  LastName : String := ""
  ImageURL : String := ""
  Rating : String := ""
  Phone : String := ""
deriving Repr, DecidableEq

def decodePerson (j : Json) : Option Person :=
  match j with
  | .null => some {}
  | .obj _ => do
    let uid ← fieldString j "user_id"
    let fn ← fieldString j "first_name"
    let ln ← fieldString j "last_name"
    let iu ← fieldString j "image_url"
    let ra ← fieldString j "rating"
    let ph ← fieldString j "phone_number"
    some { UserID := uid, FirstName := fn, LastName := ln, ImageURL := iu,
           Rating := ra, Phone := ph }
  | _ => none

structure Vehicle where
  Make : String := ""
  Model : String := ""
  Year : Int := 0
  LicensePlate : String := ""
  LicensePlateState : String := ""
  Color : String := ""
  ImageURL : String := ""
deriving Repr, DecidableEq

def decodeVehicle (j : Json) : Option Vehicle :=
  match j with
  | .null => some {}
  | .obj _ => do
    let mk ← fieldString j "make"
    let md ← fieldString j "model"
    let y ← fieldInt64 j "year"
    let lp ← fieldString j "license_plate"
    let lps ← fieldString j "license_plate_state"
    let col ← fieldString j "color"
    let iu ← fieldString j "image_url"
    some { Make := mk, Model := md, Year := y, LicensePlate := lp,
           LicensePlateState := lps, Color := col, ImageURL := iu }
  | _ => none

structure VehicleLocation where
  Latitude : Int := 0
  Longitude : Int := 0
  Bearing : Int := 0
deriving Repr, DecidableEq

def decodeVehicleLocation (j : Json) : Option VehicleLocation :=
  match j with
  | .null => some {}
  | .obj _ => do
    let lat ← fieldNum j "lat"
    let lng ← fieldNum j "lng"
    let b ← fieldNum j "bearing"
    some { Latitude := lat, Longitude := lng, Bearing := b }
  | _ => none

structure Price where
  Amount : Int := 0
  Currency : String := ""
  Description : String := ""
deriving Repr, DecidableEq

def decodePrice (j : Json) : Option Price :=
  match j with
  | .null => some {}
  | .obj _ => do
    let a ← fieldInt64 j "amount"
    let c ← fieldString j "currency"
    let d ← fieldString j "description"
    some { Amount := a, Currency := c, Description := d }
  | _ => none

/-- `LineItem`: its `Description` carries the wire field `type`. -/
structure LineItem where
  Amount : Int := 0
  Currency : String := ""
  Description : String := ""
deriving Repr, DecidableEq

def decodeLineItem (j : Json) : Option LineItem :=
  match j with
  | .null => some {}
  | .obj _ => do
    let a ← fieldInt64 j "amount"
    let c ← fieldString j "currency"
    let d ← fieldString j "type"
    some { Amount := a, Currency := c, Description := d }
  | _ => none

structure Charge where
  Amount : Int := 0
  Currency : String := ""
  PaymentMethod : String := ""
deriving Repr, DecidableEq

def decodeCharge (j : Json) : Option Charge :=
  match j with
  | .null => some {}
  | .obj _ => do
    let a ← fieldInt64 j "amount"
    let c ← fieldString j "currency"
    let pm ← fieldString j "payment_method"
    some { Amount := a, Currency := c, PaymentMethod := pm }
  | _ => none

/-! ### Ride locations, ride detail and receipt (`users.go`, `doc.go`) -/

/-- Auxiliary `rideLocation`: `eta_seconds` is a `float64` of seconds on the
wire, `time` an RFC3339 string or empty. -/
structure rideLocation where
  Latitude : Int := 0
  Longitude : Int := 0
  Address : String := ""
  ETA : Int := 0
  Time : String := ""
deriving Repr, DecidableEq

def decode_rideLocation (j : Json) : Option rideLocation :=
  match j with
  | .null => some {}
  | .obj _ => do
    let lat ← fieldNum j "lat"
    let lng ← fieldNum j "lng"
    let a ← fieldString j "address"
    let eta ← fieldNum j "eta_seconds"
    let t ← fieldString j "time"
    some { Latitude := lat, Longitude := lng, Address := a, ETA := eta, Time := t }
  | _ => none

structure RideLocation where
  Latitude : Int := 0
  Longitude : Int := 0
  Address : String := ""
  ETA : Int := 0
  Time : GoTime := {}
deriving Repr, DecidableEq

/-- `rideLocation.convert`: copies the scalar fields, converts the ETA
seconds to a duration, and parses `Time` only when it is non-empty — an
empty string leaves the zero `time.Time`; a non-empty string that fails
the RFC3339 parse fails the conversion. -/
def rideLocation.convert (l : rideLocation) : Option RideLocation :=
  let base : RideLocation :=
    { Latitude := l.Latitude, Longitude := l.Longitude, Address := l.Address,
      ETA := goSecondsDuration l.ETA }
  if l.Time = "" then some base
  else
    match parseRFC3339 l.Time with
    | some t => some { base with Time := t }
    | none => none

/-- Auxiliary `cancellationPrice`: `token_duration` is an `int64` of
seconds. -/
structure cancellationPrice where
  Amount : Int := 0
  Currency : String := ""
  Token : String := ""
  TokenDuration : Int := 0
deriving Repr, DecidableEq

def decode_cancellationPrice (j : Json) : Option cancellationPrice :=
  match j with
  | .null => some {}
  | .obj _ => do
    let a ← fieldInt64 j "amount"
    let c ← fieldString j "currency"
    let t ← fieldString j "token"
    let td ← fieldInt64 j "token_duration"
    some { Amount := a, Currency := c, Token := t, TokenDuration := td }
  | _ => none

structure CancellationPrice where
  Amount : Int := 0
  Currency : String := ""
  Token : String := ""
  TokenDuration : Int := 0
deriving Repr, DecidableEq

/-- `cancellationPrice.convert`: always succeeds. -/
def cancellationPrice.convert (c : cancellationPrice) : CancellationPrice :=
  { Amount := c.Amount, Currency := c.Currency, Token := c.Token,
    TokenDuration := goSecondsDuration c.TokenDuration }

/-- Auxiliary `rideDetail` (wire shape); `duration_seconds` is a `float64`. -/
structure rideDetail where
  RideID : String := ""
  RideStatus : String := ""
  RideType : String := ""
  Origin : rideLocation := {}
  Pickup : rideLocation := {}
  Destination : rideLocation := {}
  Dropoff : rideLocation := {}
  Location : VehicleLocation := {}
  Passenger : Person := {}
  Driver : Person := {}
  Vehicle : Vehicle := {}
  PrimetimePercentage : String := ""
  Distance : Int := 0
  Duration : Int := 0
  Price : Price := {}
  LineItems : List LineItem := []
  Requested : String := ""
  RideProfile : String := ""
  BeaconColor : String := ""
  PricingDetailsURL : String := ""
  RouteURL : String := ""
  CanCancel : List String := []
  CanceledBy : String := ""
  CancellationPrice : cancellationPrice := {}
  Rating : Int := 0
  Feedback : String := ""
deriving Repr, DecidableEq

def decode_rideDetail (j : Json) : Option rideDetail :=
  match j with
  | .null => some {}
  | .obj _ =>
    match fieldString j "ride_id" with
    | none => none
    | some rid =>
     match fieldString j "status" with
     | none => none
     | some rst =>
      match fieldString j "ride_type" with
      | none => none
      | some rty =>
       match fieldStruct j "origin" decode_rideLocation {} with
       | none => none
       | some org =>
        match fieldStruct j "pickup" decode_rideLocation {} with
        | none => none
        | some pkp =>
         match fieldStruct j "destination" decode_rideLocation {} with
         | none => none
         | some dst =>
          match fieldStruct j "dropoff" decode_rideLocation {} with
          | none => none
          | some dpf =>
           match fieldStruct j "location" decodeVehicleLocation {} with
           | none => none
           | some loc =>
            match fieldStruct j "passenger" decodePerson {} with
            | none => none
            | some pas =>
             match fieldStruct j "driver" decodePerson {} with
             | none => none
             | some drv =>
              match fieldStruct j "vehicle" decodeVehicle {} with
              | none => none
              | some veh =>
               match fieldString j "primetime_percentage" with
               | none => none
               | some ppc =>
                match fieldNum j "distance_miles" with
                | none => none
                | some dis =>
                 match fieldNum j "duration_seconds" with
                 | none => none
                 | some dur =>
                  match fieldStruct j "price" decodePrice {} with
                  | none => none
                  | some pri =>
                   match fieldList j "line_items" decodeLineItem with
                   | none => none
                   | some lit =>
                    match fieldString j "requested_at" with
                    | none => none
                    | some req =>
                     match fieldString j "ride_profile" with
                     | none => none
                     | some rpf =>
                      match fieldString j "beacon_string" with
                      | none => none
                      | some bcn =>
                       match fieldString j "pricing_details_url" with
                       | none => none
                       | some pdu =>
                        match fieldString j "route_url" with
                        | none => none
                        | some rou =>
                         match fieldList j "can_cancel" decodeStringElem with
                         | none => none
                         | some ccl =>
                          match fieldString j "canceled_by" with
                          | none => none
                          | some cby =>
                           match fieldStruct j "cancellation_price" decode_cancellationPrice {} with
                           | none => none
                           | some cpr =>
                            match fieldInt64 j "rating" with
                            | none => none
                            | some rat =>
                             match fieldString j "feedback" with
                             | none => none
                             | some fdb =>
                              some (rideDetail.mk rid rst rty org pkp dst dpf loc pas drv veh ppc dis dur pri lit req rpf bcn pdu rou ccl cby cpr rat fdb)
  | _ => none

structure RideDetail where
  RideID : String := ""
  RideStatus : String := ""
  RideType : String := ""
  Origin : RideLocation := {}
  Pickup : RideLocation := {}
  Destination : RideLocation := {}
  Dropoff : RideLocation := {}
  Location : VehicleLocation := {}
  Passenger : Person := {}
  Driver : Person := {}
  Vehicle : Vehicle := {}
  PrimetimePercentage : String := ""
  Distance : Int := 0
  Duration : Int := 0
  Price : Price := {}
  LineItems : List LineItem := []
  Requested : GoTime := {}
  RideProfile : String := ""
  BeaconColor : String := ""
  PricingDetailsURL : String := ""
  RouteURL : String := ""
  CanCancel : List String := []
  CanceledBy : String := ""
  CancellationPrice : CancellationPrice := {}
  Rating : Int := 0
  Feedback : String := ""
deriving Repr, DecidableEq

/-- `rideDetail.convert`: converts the four ride locations (propagating
their failures), normalizes the duration, parses `requested_at` only when
non-empty, and converts the cancellation price. -/
def rideDetail.convert (r : rideDetail) : Option RideDetail := do
  let org ← rideLocation.convert r.Origin
  let pkp ← rideLocation.convert r.Pickup
  let dst ← rideLocation.convert r.Destination
  let dpf ← rideLocation.convert r.Dropoff
  let req ←
    if r.Requested = "" then some ({} : GoTime)
    else parseRFC3339 r.Requested
  some { RideID := r.RideID, RideStatus := r.RideStatus, RideType := r.RideType,
         Origin := org, Pickup := pkp, Destination := dst, Dropoff := dpf,
         Location := r.Location, Passenger := r.Passenger, Driver := r.Driver,
         Vehicle := r.Vehicle, PrimetimePercentage := r.PrimetimePercentage,
         Distance := r.Distance, Duration := goSecondsDuration r.Duration,
         Price := r.Price, LineItems := r.LineItems, Requested := req,
         RideProfile := r.RideProfile, BeaconColor := r.BeaconColor,
         PricingDetailsURL := r.PricingDetailsURL, RouteURL := r.RouteURL,
         CanCancel := r.CanCancel, CanceledBy := r.CanceledBy,
         CancellationPrice := cancellationPrice.convert r.CancellationPrice,
         Rating := r.Rating, Feedback := r.Feedback }

/-- `RideDetail.UnmarshalJSON`: decode the auxiliary struct, then convert. -/
def RideDetail.unmarshalJSON (j : Json) : Option RideDetail :=
  (decode_rideDetail j).bind rideDetail.convert

/-! ### Ride receipt (`doc.go`) -/

structure RideReceipt where
  RideID : String := ""
  Price : Price := {}
  LineItems : List LineItem := []
  Charges : List Charge := []
  Requested : GoTime := {}
  RideProfile : String := ""
deriving Repr, DecidableEq

/-- The auxiliary `rideReceipt` wire struct: `requested_at` is a string. -/
structure rideReceipt where
  RideID : String := ""
  Price : Price := {}
  LineItems : List LineItem := []
  Charges : List Charge := []
  Requested : String := ""
  RideProfile : String := ""
deriving Repr, DecidableEq

def decode_rideReceipt (j : Json) : Option rideReceipt :=
  match j with
  | .null => some {}
  | .obj _ => do
    let rid ← fieldString j "ride_id"
    let pri ← fieldStruct j "price" decodePrice {}
    let lit ← fieldList j "line_items" decodeLineItem
    let chg ← fieldList j "charges" decodeCharge
    let req ← fieldString j "requested_at"
    let rpf ← fieldString j "ride_profile"
    some { RideID := rid, Price := pri, LineItems := lit, Charges := chg,
           Requested := req, RideProfile := rpf }
  | _ => none

/-- `RideReceipt.UnmarshalJSON`: decode the auxiliary struct, copy the
fields, and parse `requested_at` only when non-empty (an empty string
leaves the zero `time.Time`; a bad non-empty string fails the decode). -/
def RideReceipt.unmarshalJSON (j : Json) : Option RideReceipt :=
  match decode_rideReceipt j with
  | none => none
  | some aux =>
    match (if aux.Requested = "" then some ({} : GoTime)
           else parseRFC3339 aux.Requested) with
    | none => none
    | some req =>
      some { RideID := aux.RideID, Price := aux.Price,
             LineItems := aux.LineItems, Charges := aux.Charges,
             Requested := req, RideProfile := aux.RideProfile }

/-! ### Ride requests (`doc.go`) -/

/-- `CreatedRide` (plain tags, default decoding). -/
structure CreatedRide where
  RideID : String := ""
  RideStatus : String := ""
  RideType : String := ""
  Origin : Location := {}
  Destination : Location := {}
  Passenger : Person := {}
deriving Repr, DecidableEq

def decodeCreatedRide (j : Json) : Option CreatedRide :=
  match j with
  | .null => some {}
  | .obj _ => do
    let rid ← fieldString j "ride_id"
    let rst ← fieldString j "status"
    let rty ← fieldString j "ride_type"
    let org ← fieldStruct j "origin" decodeLocation {}
    let dst ← fieldStruct j "destination" decodeLocation {}
    let pas ← fieldStruct j "passenger" decodePerson {}
    some { RideID := rid, RideStatus := rst, RideType := rty, Origin := org,
           Destination := dst, Passenger := pas }
  | _ => none

/-- `RequestRide`, from the point the response is available: `201` decodes
the body as `CreatedRide` (a decode failure is returned as an error),
`400` returns `newRideRequestError`, anything else `newStatusError`. -/
def requestRideResponse (rsp : Response) : Except GoError CreatedRide :=
  if rsp.StatusCode == 201 then
    match (Body.parse rsp.Body).bind decodeCreatedRide with
    | some cr => .ok cr
    | none => .error .decodeErr
  else if rsp.StatusCode == 400 then
    .error (.rideRequestErr (newRideRequestError rsp))
  else
    .error (.statusError (newStatusError rsp))

/-- `CancelRide`, from the point the response is available: `204` is
success (`nil` error), `400` returns `newCancelRideError`, anything else
`newStatusError`. -/
def cancelRideResponse (rsp : Response) : Option GoError :=
  if rsp.StatusCode == 204 then none
  else if rsp.StatusCode == 400 then
    some (.cancelRideErr (newCancelRideError rsp))
  else
    some (.statusError (newStatusError rsp))

/-! ### Cost estimates and driver ETA (`part_002`) -/

structure CostEstimate where
  RideType : String := ""
  DisplayName : String := ""
  MaximumCost : Int := 0
  MinimumCost : Int := 0
  Distance : Int := 0
  Duration : Int := 0
  PrimetimeToken : String := ""
  CostToken : String := ""
  Valid : Bool := false
deriving Repr, DecidableEq

/-- `CostEstimate.UnmarshalJSON`: `estimated_duration_seconds` is an
`int64` of seconds, converted by `time.Second * time.Duration(n)`. -/
def CostEstimate.unmarshalJSON (j : Json) : Option CostEstimate :=
  match j with
  | .null => some {}
  | .obj _ => do
    let rty ← fieldString j "ride_type"
    let dn ← fieldString j "display_name"
    let mx ← fieldInt64 j "estimated_cost_cents_max"
    let mn ← fieldInt64 j "estimated_cost_cents_min"
    let dis ← fieldNum j "estimated_distance_miles"
    let dur ← fieldInt64 j "estimated_duration_seconds"
    let pt ← fieldString j "primetime_confirmation_token"
    let ct ← fieldString j "cost_token"
    let va ← fieldBool j "is_valid_estimate"
    some { RideType := rty, DisplayName := dn, MaximumCost := mx,
           MinimumCost := mn, Distance := dis,
           Duration := goSecondsDuration dur, PrimetimeToken := pt,
           CostToken := ct, Valid := va }
  | _ => none

structure ETAEstimate where
  RideType : String := ""
  DisplayName : String := ""
  ETA : Int := 0
  Valid : Bool := false
deriving Repr, DecidableEq

/-- `ETAEstimate.UnmarshalJSON`: `eta_seconds` is an `int64` of seconds. -/
def ETAEstimate.unmarshalJSON (j : Json) : Option ETAEstimate :=
  match j with
  | .null => some {}
  | .obj _ => do
    let rty ← fieldString j "ride_type"
    let dn ← fieldString j "display_name"
    let eta ← fieldInt64 j "eta_seconds"
    let va ← fieldBool j "is_valid_estimate"
    some { RideType := rty, DisplayName := dn, ETA := goSecondsDuration eta,
           Valid := va }
  | _ => none

/-! ### Webhook events (`part_001` of the source) -/

/-- `Event`: the decoded webhook event. -/
structure Event where
  EventID : String := ""
  URL : String := ""
  Occurred : GoTime := {}
  EventType : String := ""
  Detail : RideDetail := {}
deriving Repr, DecidableEq

/-- The local auxiliary `event` struct of `Event.UnmarshalJSON`:
`event_id`, `href`, `occurred_at` (string), `event_type`, and `event`
(a `lyft.RideDetail`, decoded by its custom unmarshaler). -/
structure eventAux where
  EventID : String := ""
  URL : String := ""
  Occurred : String := ""
  EventType : String := ""
  Detail : RideDetail := {}
deriving Repr, DecidableEq

def decode_eventAux (j : Json) : Option eventAux :=
  match j with
  | .null => some {}
  | .obj _ => do
    let eid ← fieldString j "event_id"
    let url ← fieldString j "href"
    let occ ← fieldString j "occurred_at"
    let ety ← fieldString j "event_type"
    let det ← fieldStruct j "event" RideDetail.unmarshalJSON {}
    some { EventID := eid, URL := url, Occurred := occ, EventType := ety,
           Detail := det }
  | _ => none

/-- `Event.UnmarshalJSON` on a fresh (zero) receiver, assignment by
assignment: `e.EventID = aux.EventID`; `e.URL = aux.URL`; parse
`occurred_at` when non-empty (a parse failure fails the decode);
then `e.EventID = aux.EventType` — the source assigns the wire
`event_type` to the `EventID` field a second time, overwriting the wire
`event_id`, and never assigns `e.EventType`, which stays `""`; finally
`e.Detail = aux.Detail`. -/
def Event.unmarshalJSON (j : Json) : Option Event :=
  match decode_eventAux j with
  | none => none
  | some aux =>
    match (if aux.Occurred = "" then some ({} : GoTime)
           else parseRFC3339 aux.Occurred) with
    | none => none
    | some occ =>
      some { EventID := aux.EventType, URL := aux.URL, Occurred := occ,
             EventType := "", Detail := aux.Detail }

/-- `SandboxEventPrefix`. -/
def SandboxEventPrefix : String := "sandboxevent"

/-- `Event.IsSandbox`: whether `EventID` starts with the sandbox prefix. -/
def Event.IsSandbox (e : Event) : Bool :=
  SandboxEventPrefix.isPrefixOf e.EventID

/-! ### Query construction for `CostEstimates` and `DriverETA`
(`part_002` of the source)

Coordinates are `float64` in Go; the claim-relevant behavior is which
*string* ends up under which query key, so coordinates are modelled as
integers and `formatFloat` as decimal formatting, which agrees with
`strconv.FormatFloat(v, 'f', -1, 64)` on integer-valued input. -/

/-- `url.Values` restricted to what `Set` builds: single-valued keys. -/
abbrev Values := List (String × String)

/-- `url.Values.Set`: replace the value of `k`, or append it. -/
def Values.set (vals : Values) (k v : String) : Values :=
  if vals.any (fun kv => kv.1 == k) then
    vals.map (fun kv => if kv.1 == k then (k, v) else kv)
  else vals ++ [(k, v)]

/-- `url.Values.Get`: the value under `k`, or the empty string. -/
def Values.get (vals : Values) (k : String) : String :=
  match vals.find? (fun kv => kv.1 == k) with
  | some kv => kv.2
  | none => ""

/-- `formatFloat` on integer-valued coordinates. -/
def formatFloat (n : Int) : String := toString n

/-- `IgnoreArg`, the sentinel for optional coordinate arguments (`-181`,
outside the valid longitude range). -/
def IgnoreArg : Int := -181

/-- The query built by `CostEstimates`: note the source sets `ride_type`
to `formatFloat(endLng)`, not to the `rideType` argument. -/
def costEstimatesQuery (startLat startLng endLat endLng : Int)
    (rideType : String) : Values :=
  let vals := Values.set [] "start_lat" (formatFloat startLat)
  let vals := Values.set vals "start_lng" (formatFloat startLng)
  let vals := if endLat ≠ IgnoreArg
    then Values.set vals "end_lat" (formatFloat endLat) else vals
  let vals := if endLng ≠ IgnoreArg
    then Values.set vals "end_lng" (formatFloat endLng) else vals
  let vals := if rideType ≠ ""
    then Values.set vals "ride_type" (formatFloat endLng) else vals
  vals

/-- The query built by `DriverETA`: as in `costEstimatesQuery`, the source
sets `ride_type` to `formatFloat(endLng)`, not to the `rideType`
argument. -/
def driverETAQuery (startLat startLng endLat endLng : Int)
    (rideType : String) : Values :=
  let vals := Values.set [] "lat" (formatFloat startLat)
  let vals := Values.set vals "lng" (formatFloat startLng)
  let vals := if endLat ≠ IgnoreArg
    then Values.set vals "destination_lat" (formatFloat endLat) else vals
  let vals := if endLng ≠ IgnoreArg
    then Values.set vals "destination_lng" (formatFloat endLng) else vals
  let vals := if rideType ≠ ""
    then Values.set vals "ride_type" (formatFloat endLng) else vals
  vals

/-- The query built by `RideTypes` (which, unlike the two above, does pass
its `rideType` argument through). -/
def rideTypesQuery (lat lng : Int) (rideType : String) : Values :=
  let vals := Values.set [] "lat" (formatFloat lat)
  let vals := Values.set vals "lng" (formatFloat lng)
  if rideType ≠ "" then Values.set vals "ride_type" rideType else vals

/-! ### Spec-side definitions

These two definitions follow the specification's words (not the source);
the claim theorems compare the source-derived functions against them. -/

/-- Spec-side reason of a classified error: the first value of the
non-standard `error` response header when present, otherwise the `error`
field of the JSON-decoded body when the body decodes successfully,
otherwise the empty string. -/
def reason_spec (h : Header) (b : Body) : String :=
  match headerValues h "error" with
  | v :: _ => v
  | [] =>
    match unmarshal_lyftError b with
    | some le => le.Slug
    | none => ""

/-- Spec-side shape of a base-10 integer string: an optional sign followed
by one or more digits (range not considered). -/
def isNumericString (s : String) : Bool :=
  match s.toList with
  | [] => false
  | c :: rest =>
    let ds : List Char := if c = '-' ∨ c = '+' then rest else c :: rest
    !ds.isEmpty && ds.all Char.isDigit

/-! ### Helper lemmas -/

theorem wrap64_eq_self (z : Int) (h1 : -int64Bound ≤ z) (h2 : z < int64Bound) :
    wrap64 z = z := by
  unfold wrap64 int64Bound at *
  omega

theorem foldl_digitStep_none (ds : List Char) :
    List.foldl digitStep none ds = none := by
  induction ds with
  | nil => rfl
  | cons c tl ih => simpa [digitStep] using ih

theorem foldl_digitStep_nondigit (ds : List Char)
    (h : ds.all Char.isDigit = false) :
    ∀ acc : Option Nat, List.foldl digitStep acc ds = none := by
  induction ds with
  | nil => simp at h
  | cons c tl ih =>
    intro acc
    rw [List.foldl_cons]
    by_cases hc : c.isDigit
    · have htl : tl.all Char.isDigit = false := by simpa [List.all_cons, hc] using h
      exact ih htl _
    · have hz : digitStep acc c = none := by
        cases acc <;> simp [digitStep, hc]
      rw [hz]
      exact foldl_digitStep_none tl

theorem digitsToNat_eq_none (ds : List Char)
    (h : (!ds.isEmpty && ds.all Char.isDigit) = false) :
    digitsToNat ds = none := by
  unfold digitsToNat
  by_cases he : ds.isEmpty
  · simp [he]
  · rw [if_neg he]
    cases hall : ds.all Char.isDigit with
    | false => exact foldl_digitStep_nondigit ds hall (some 0)
    | true => rw [hall] at h; simp [he] at h

/-- A string that is not sign-plus-digits fails `strconv.ParseInt`. -/
theorem parseInt64_eq_none (s : String) (h : isNumericString s = false) :
    parseInt64 s = none := by
  unfold parseInt64
  unfold isNumericString at h
  cases hls : s.toList with
  | nil => simp
  | cons c rest =>
    rw [hls] at h
    simp only at h ⊢
    rw [digitsToNat_eq_none _ h]

theorem Body.isEmpty_iff (b : Body) : b.isEmpty = true ↔ b = .empty := by
  cases b <;> simp [Body.isEmpty]

/-! ### Claim theorems -/

/-- C1: error classification always succeeds and produces a `StatusError`
(`newErrorInfo`/`newStatusError` are total functions into `StatusError`);
its `Reason` equals the first value of the non-standard `error` response
header when that header holds a value, otherwise the `error` field of the
JSON-decoded body when the body decodes successfully, otherwise the empty
string — a body-decode failure is never propagated as the classification
result. -/
theorem c1_error_classification (rsp : Response) :
    (newStatusError rsp).Reason = reason_spec rsp.Header rsp.Body := by
  unfold newStatusError newErrorInfo reason_spec
  cases headerValues rsp.Header "error" <;> cases unmarshal_lyftError rsp.Body <;> rfl

/-- C5: for every response, the `ResponseBody` captured in the constructed
`StatusError` equals the original response body, regardless of whether the
body was also successfully JSON-decoded for reason extraction — the
classification decodes an independent copy of the buffered bytes. -/
theorem c5_response_body_preserved (rsp : Response) :
    (newStatusError rsp).ResponseBody = rsp.Body := rfl

/-- C6: `IsTokenExpired` returns true for an error exactly when it is a
`StatusError` and either its status code is 401 with an empty captured
body, or its decoded reason equals the literal `token_expired` (regardless
of status code); it returns false for every other error. -/
theorem c6_token_expired_characterization (err : GoError) :
    IsTokenExpired err = true ↔
      ∃ se : StatusError, err = .statusError se
        ∧ ((se.StatusCode = 401 ∧ se.ResponseBody = .empty)
            ∨ se.Reason = "token_expired") := by
  cases err with
  | statusError se =>
    simp only [IsTokenExpired, Bool.or_eq_true, Bool.and_eq_true, beq_iff_eq,
               Body.isEmpty_iff, TokenExpired]
    constructor
    · intro h
      exact ⟨se, rfl, h⟩
    · rintro ⟨se2, heq, h⟩
      cases heq
      exact h
  | rideRequestErr e =>
    simp only [IsTokenExpired]
    constructor
    · intro h; cases h
    · rintro ⟨se, heq, -⟩; cases heq
  | cancelRideErr e =>
    simp only [IsTokenExpired]
    constructor
    · intro h; cases h
    · rintro ⟨se, heq, -⟩; cases heq
  | decodeErr =>
    simp only [IsTokenExpired]
    constructor
    · intro h; cases h
    · rintro ⟨se, heq, -⟩; cases heq
  | errVerify =>
    simp only [IsTokenExpired]
    constructor
    · intro h; cases h
    · rintro ⟨se, heq, -⟩; cases heq
  | other s =>
    simp only [IsTokenExpired]
    constructor
    · intro h; cases h
    · rintro ⟨se, heq, -⟩; cases heq

/-- C2 counterexample: the wire value 10^10 is a legitimate `int64` number
of seconds, but `CostEstimate.UnmarshalJSON` multiplies it into an `int64`
duration, which wraps: the result is a negative duration, not 10^10
seconds (`10^10 * 10^9` nanoseconds). -/
theorem c2_counterexample :
    (CostEstimate.unmarshalJSON
        (.obj [("estimated_duration_seconds", .num 10000000000)])).map
      (fun ce => ce.Duration) = some (-8446744073709551616)
    ∧ (-8446744073709551616 : Int) ≠ 10000000000 * nsPerSecond :=
  ⟨by decide, by decide⟩

/-- C2 amended: a numeric seconds field whose nanosecond equivalent fits
`int64` (absolute value at most 9223372036 seconds) yields a duration of
exactly that many seconds; a seconds-string field is parsed as a base-10
integer (wire string 120 yields the 120-second duration), and a string
that is not an optional sign followed by digits fails the decode. -/
theorem c2_seconds_normalization :
    (∀ n : Int, -9223372036 ≤ n → n ≤ 9223372036 →
      (CostEstimate.unmarshalJSON
          (.obj [("estimated_duration_seconds", .num n)])).map
        (fun ce => ce.Duration) = some (n * nsPerSecond))
    ∧ (CostTokenInfo.unmarshalJSON (.obj [("token_duration", .str "120")])).map
        (fun c => c.TokenDuration) = some (120 * nsPerSecond)
    ∧ (∀ s : String, isNumericString s = false →
        CostTokenInfo.unmarshalJSON (.obj [("token_duration", .str s)]) = none) := by
  refine ⟨?_, by decide, ?_⟩
  · intro n hlo hhi
    have hr : -int64Bound ≤ n ∧ n < int64Bound := by
      constructor <;> (unfold int64Bound; omega)
    simp only [CostEstimate.unmarshalJSON, fieldString, fieldInt64, fieldNum,
               fieldBool, Json.getField, lookupField, List.foldl]
    simp only [String.reduceEq, reduceIte, if_pos hr]
    simp only [bind, Option.bind, Option.map, goSecondsDuration]
    rw [wrap64_eq_self]
    · ring_nf
    · unfold int64Bound nsPerSecond; omega
    · unfold int64Bound nsPerSecond; omega
  · intro s h
    simp only [CostTokenInfo.unmarshalJSON, fieldString, fieldNum, Json.getField,
               lookupField, List.foldl]
    simp only [String.reduceEq, reduceIte]
    simp only [bind, Option.bind]
    rw [parseInt64_eq_none s h]

/-- C2 witness: the amended theorem applied at wire value 120 and at the
non-numeric seconds-string 12a. -/
theorem c2_witness :
    (CostEstimate.unmarshalJSON
        (.obj [("estimated_duration_seconds", .num 120)])).map
      (fun ce => ce.Duration) = some (120 * nsPerSecond)
    ∧ CostTokenInfo.unmarshalJSON (.obj [("token_duration", .str "12a")]) = none :=
  ⟨c2_seconds_normalization.1 120 (by decide) (by decide),
   c2_seconds_normalization.2.2 "12a" (by decide)⟩

/-- C3 counterexample: with the claim's exact body (no `token_duration`
field), the supplementary cost decode fails — `strconv.ParseInt` rejects
the empty `token_duration` string — so `Cost` is nil and no cost-token
field equals the string abc, although the reason is as claimed. -/
theorem c3_counterexample :
    ((newRideRequestError ⟨400, [],
        .json (.obj [("error", .str "confirmation_required"),
                     ("cost_token", .str "abc")])⟩).Cost.map
      (fun c => c.CostToken) = none)
    ∧ (newRideRequestError ⟨400, [],
        .json (.obj [("error", .str "confirmation_required"),
                     ("cost_token", .str "abc")])⟩).Reason
      = "confirmation_required" :=
  ⟨by decide, by decide⟩

/-- C3 amended: when the 400 body additionally carries a parseable
`token_duration` seconds-string, the returned ride-request error has
reason confirmation_required and its cost info carries cost-token abc,
and `RequestRide` routes the 400 response to exactly this error. -/
theorem c3_request_ride_confirmation :
    (newRideRequestError ⟨400, [],
        .json (.obj [("error", .str "confirmation_required"),
                     ("cost_token", .str "abc"),
                     ("token_duration", .str "300")])⟩).Reason
      = "confirmation_required"
    ∧ (newRideRequestError ⟨400, [],
        .json (.obj [("error", .str "confirmation_required"),
                     ("cost_token", .str "abc"),
                     ("token_duration", .str "300")])⟩).Cost.map
        (fun c => c.CostToken) = some "abc"
    ∧ requestRideResponse ⟨400, [],
        .json (.obj [("error", .str "confirmation_required"),
                     ("cost_token", .str "abc"),
                     ("token_duration", .str "300")])⟩
      = .error (.rideRequestErr (newRideRequestError ⟨400, [],
          .json (.obj [("error", .str "confirmation_required"),
                       ("cost_token", .str "abc"),
                       ("token_duration", .str "300")])⟩)) :=
  ⟨by decide, by decide, rfl⟩

/-- C4: a 400 cancel-ride response with the scenario body yields a
cancel-ride error with amount 5, currency USD, token tok123 and a
300-second token duration, routed by `CancelRide`; and whenever the
supplementary decode of the body fails, the supplementary fields are left
at their zero values while classification still succeeds with the generic
error info. -/
theorem c4_cancel_ride_error :
    ((newCancelRideError ⟨400, [],
        .json (.obj [("amount", .num 5), ("currency", .str "USD"),
                     ("token", .str "tok123"),
                     ("token_duration", .num 300)])⟩).Amount = 5
      ∧ (newCancelRideError ⟨400, [],
          .json (.obj [("amount", .num 5), ("currency", .str "USD"),
                       ("token", .str "tok123"),
                       ("token_duration", .num 300)])⟩).Currency = "USD"
      ∧ (newCancelRideError ⟨400, [],
          .json (.obj [("amount", .num 5), ("currency", .str "USD"),
                       ("token", .str "tok123"),
                       ("token_duration", .num 300)])⟩).Token = "tok123"
      ∧ (newCancelRideError ⟨400, [],
          .json (.obj [("amount", .num 5), ("currency", .str "USD"),
                       ("token", .str "tok123"),
                       ("token_duration", .num 300)])⟩).TokenDuration
          = 300 * nsPerSecond
      ∧ cancelRideResponse ⟨400, [],
          .json (.obj [("amount", .num 5), ("currency", .str "USD"),
                       ("token", .str "tok123"),
                       ("token_duration", .num 300)])⟩
          = some (.cancelRideErr (newCancelRideError ⟨400, [],
              .json (.obj [("amount", .num 5), ("currency", .str "USD"),
                           ("token", .str "tok123"),
                           ("token_duration", .num 300)])⟩)))
    ∧ (∀ (h : Header) (b : Body), unmarshal_cancelAux b = none →
        newCancelRideError ⟨400, h, b⟩ = { toErrorInfo := newErrorInfo b h }) := by
  refine ⟨⟨by decide, by decide, by decide, by decide, rfl⟩, ?_⟩
  intro h b hb
  simp only [newCancelRideError]
  rw [hb]

/-- C4 witness: the supplementary-decode-failure clause applied to a body
that is not well-formed JSON. -/
theorem c4_witness :
    newCancelRideError ⟨400, [], .invalid "oops"⟩
      = { toErrorInfo := newErrorInfo (.invalid "oops") [] } :=
  c4_cancel_ride_error.2 [] (.invalid "oops") rfl

/-- C7: in `rideLocation.convert` and `RideReceipt.UnmarshalJSON`, an
empty-string timestamp field leaves the output at the zero time without a
decode error; a non-empty timestamp is parsed with the fixed RFC3339
layout, the parsed value is stored on success, and the whole conversion
or decode fails on a parse mismatch. -/
theorem c7_timestamp_fields :
    (∀ l : rideLocation, l.Time = "" →
      rideLocation.convert l
        = some { Latitude := l.Latitude, Longitude := l.Longitude,
                 Address := l.Address, ETA := goSecondsDuration l.ETA,
                 Time := {} })
    ∧ (∀ (l : rideLocation) (t : GoTime), l.Time ≠ "" →
        parseRFC3339 l.Time = some t →
        rideLocation.convert l
          = some { Latitude := l.Latitude, Longitude := l.Longitude,
                   Address := l.Address, ETA := goSecondsDuration l.ETA,
                   Time := t })
    ∧ (∀ l : rideLocation, l.Time ≠ "" → parseRFC3339 l.Time = none →
        rideLocation.convert l = none)
    ∧ (∀ (j : Json) (aux : rideReceipt), decode_rideReceipt j = some aux →
        aux.Requested = "" →
        RideReceipt.unmarshalJSON j
          = some { RideID := aux.RideID, Price := aux.Price,
                   LineItems := aux.LineItems, Charges := aux.Charges,
                   Requested := {}, RideProfile := aux.RideProfile })
    ∧ (∀ (j : Json) (aux : rideReceipt), decode_rideReceipt j = some aux →
        aux.Requested ≠ "" → parseRFC3339 aux.Requested = none →
        RideReceipt.unmarshalJSON j = none) := by
  refine ⟨?_, ?_, ?_, ?_, ?_⟩
  · intro l h
    simp only [rideLocation.convert, h, if_pos]
  · intro l t h hp
    simp only [rideLocation.convert, if_neg h, hp]
  · intro l h hp
    simp only [rideLocation.convert, if_neg h, hp]
  · intro j aux hdec hreq
    simp only [RideReceipt.unmarshalJSON, hdec, hreq, if_pos]
  · intro j aux hdec hreq hp
    simp only [RideReceipt.unmarshalJSON, hdec, if_neg hreq, hp]

/-- C7 witness: the five clauses applied at concrete locations and receipt
bodies — an empty timestamp, a well-formed timestamp, a malformed
timestamp, a receipt without `requested_at`, and a receipt with a
malformed `requested_at`. -/
theorem c7_witness :
    rideLocation.convert {}
      = some { Latitude := (0 : Int), Longitude := 0, Address := "",
               ETA := goSecondsDuration 0, Time := {} }
    ∧ rideLocation.convert { Time := "2018-01-02T03:04:05Z" }
      = some { Latitude := (0 : Int), Longitude := 0, Address := "",
               ETA := goSecondsDuration 0,
               Time := { year := 2018, month := 1, day := 2, hour := 3,
                         minute := 4, sec := 5 } }
    ∧ rideLocation.convert { Time := "bogus" } = none
    ∧ RideReceipt.unmarshalJSON (.obj [("ride_id", .str "r1")])
      = some { RideID := "r1", Price := {}, LineItems := [], Charges := [],
               Requested := {}, RideProfile := "" }
    ∧ RideReceipt.unmarshalJSON (.obj [("requested_at", .str "nope")]) = none :=
  ⟨c7_timestamp_fields.1 {} rfl,
   c7_timestamp_fields.2.1 { Time := "2018-01-02T03:04:05Z" }
     { year := 2018, month := 1, day := 2, hour := 3, minute := 4, sec := 5 }
     (by decide) (by decide),
   c7_timestamp_fields.2.2.1 { Time := "bogus" } (by decide) (by decide),
   c7_timestamp_fields.2.2.2.1 (.obj [("ride_id", .str "r1")])
     { RideID := "r1" } (by decide) rfl,
   c7_timestamp_fields.2.2.2.2 (.obj [("requested_at", .str "nope")])
     { Requested := "nope" } (by decide) (by decide) (by decide)⟩

/-- C9: decoding a well-formed webhook payload whose `event_id` is the
string sandboxevent123 and whose `event_type` is ride.status.updated
yields an `Event` whose `EventID` is the wire `event_type` and whose
`EventType` is empty — the source assigns `aux.EventType` to the
`EventID` field and never assigns `EventType`, contradicting the `Event`
struct documentation and `IsSandbox`. -/
theorem c9_event_id_type_swap :
    Event.unmarshalJSON
        (.obj [("event_id", .str "sandboxevent123"),
               ("event_type", .str "ride.status.updated"),
               ("href", .str "https://hooks.example/e1"),
               ("occurred_at", .str "2018-01-02T03:04:05Z")])
      = some { EventID := "ride.status.updated",
               URL := "https://hooks.example/e1",
               Occurred := { year := 2018, month := 1, day := 2, hour := 3,
                             minute := 4, sec := 5 },
               EventType := "", Detail := {} }
    ∧ "ride.status.updated" ≠ "sandboxevent123" :=
  ⟨by decide, by decide⟩

/-- C10: with a non-empty rideType argument, `CostEstimates` and
`DriverETA` set the `ride_type` query parameter to the formatted `endLng`
argument rather than to rideType (while `RideTypes` passes rideType
through correctly): at `endLng = IgnoreArg` the parameter is the literal
-181, and at `endLng = 7` it is 7, neither of which is the requested
ride type. -/
theorem c10_ride_type_query_param :
    Values.get (costEstimatesQuery 1 2 IgnoreArg IgnoreArg "lyft") "ride_type"
      = "-181"
    ∧ Values.get (driverETAQuery 1 2 IgnoreArg 7 "lyft") "ride_type" = "7"
    ∧ Values.get (rideTypesQuery 1 2 "lyft") "ride_type" = "lyft"
    ∧ ("-181" : String) ≠ "lyft" ∧ ("7" : String) ≠ "lyft" :=
  ⟨by decide, by decide, by decide, by decide, by decide⟩
